import Mathlib

/-!
# Verification of the ScraperMaster content-extraction pipeline

Shallow embedding, in Lean 4, of the content-extraction core of the
`scrapermaster-api` repository (`main.py` and
`controllers/scraper_pipelines.py`), together with theorems settling the
specification claims about it.

The embedding covers:
* the result-assembly step of the two `scrape_url_content` orchestrator
  variants (truncation of `images`/`links` and the derived `metadata`
  counters),
* the phone-number post-processing used for `contact_info.phones`,
* the DOM-walking extractors of `ContentProcessor.extract_structured_data`
  (tables and lists) and `ContentProcessor.clean_and_organize_content`,
* the exception flow of `extract_structured_data` and of the orchestrator's
  processing block,
* `handle_cookie_dialogs`, and
* `ContentProcessor.extract_amounts` with a faithful model of the five
  Python `re.findall` passes it runs.

Python machine-level details that the claims do not touch (Unicode
whitespace classes beyond ASCII, the browser, the HTML parser itself) are
modelled at the granularity noted in each definition's doc comment.
-/

namespace Scraper

/-- One entry of the `links` array built by the in-page JavaScript of
`scrape_url_content` (an object `{text, url}`). -/
structure LinkEntry where
  text : String
  url : String
deriving DecidableEq, Repr

/-- The `contact_info` dict built in
`ContentProcessor.extract_structured_data` (`main.py` lines 110-114). -/
structure ContactInfo where
  emails : List String
  phones : List String
  names : List String
deriving DecidableEq, Repr

/-- The `structured` dict returned by
`ContentProcessor.extract_structured_data`: tables, lists, headings
(present `h1`..`h6` keys with their texts, in key-insertion order),
contact info and dates. -/
structure StructuredData where
  tables : List (List (List String))
  lists : List (List String)
  headings : List (String × List String)
  contact_info : ContactInfo
  dates : List String
deriving DecidableEq, Repr

/-- The `metadata` dict built in `main.py` `scrape_url_content`
(lines 280-292). -/
structure MetadataMain where
  title : String
  content_length : Nat
  images_count : Nat
  links_count : Nat
  amounts_found : Nat
  has_tables : Bool
  has_lists : Bool
  headings_count : Nat
  emails_found : Nat
  phones_found : Nat
deriving DecidableEq, Repr

/-- The `metadata` dict built in `controllers/scraper_pipelines.py`
`scrape_url_content` (lines 67-76); it has no email/phone counters. -/
structure MetadataPipe where
  title : String
  content_length : Nat
  images_count : Nat
  links_count : Nat
  amounts_found : Nat
  has_tables : Bool
  has_lists : Bool
  headings_count : Nat
deriving DecidableEq, Repr

/-- The `ScrapedContent` response as assembled by `main.py`
`scrape_url_content` (lines 294-308); its `structured_data` dict is the
extractor's dict spread together with the top-level `emails` and `phones`
lists. -/
structure ScrapedContentMain where
  url : String
  title : String
  markdown_content : String
  clean_body_html : String
  metadata : MetadataMain
  images : List String
  links : List LinkEntry
  amounts : List String
  structured_base : StructuredData
  structured_emails : List String
  structured_phones : List String
deriving DecidableEq, Repr

/-- The `ScrapedContent` response as assembled by
`controllers/scraper_pipelines.py` `scrape_url_content` (lines 77-86). -/
structure ScrapedContentPipe where
  url : String
  title : String
  markdown_content : String
  metadata : MetadataPipe
  images : List String
  links : List LinkEntry
  amounts : List String
  structured_data : StructuredData
deriving DecidableEq, Repr

/-- Sum of the per-level heading counts:
`sum(len(headings) for headings in structured_data["headings"].values())`. -/
def headingsTotal (hs : List (String × List String)) : Nat :=
  (hs.map (fun h => h.2.length)).sum

/-- The pure assembly step of `main.py` `scrape_url_content`
(lines 280-308), applied to the already-extracted pieces: the metadata
counters are computed from the full `images`/`links` arrays, `links` is
truncated with `links[:50]`, and `images` is passed through untruncated
(the source comment reads "Ya no limitamos a 20 imágenes"). -/
def scrape_assemble_main (url title markdown_content clean_body_html : String)
    (images : List String) (links : List LinkEntry)
    (amounts emails phones : List String) (sd : StructuredData) :
    ScrapedContentMain :=
  { url := url
    title := title
    markdown_content := markdown_content
    clean_body_html := clean_body_html
    metadata :=
      { title := title
        content_length := markdown_content.length
        images_count := images.length
        links_count := links.length
        amounts_found := amounts.length
        has_tables := decide (0 < sd.tables.length)
        has_lists := decide (0 < sd.lists.length)
        headings_count := headingsTotal sd.headings
        emails_found := emails.length
        phones_found := phones.length }
    images := images
    links := links.take 50
    amounts := amounts
    structured_base := sd
    structured_emails := emails
    structured_phones := phones }

/-- The pure assembly step of `controllers/scraper_pipelines.py`
`scrape_url_content` (lines 67-86): metadata counters from the full
arrays, then `images[:20]` and `links[:50]`. -/
def scrape_assemble_pipe (url title markdown_content : String)
    (images : List String) (links : List LinkEntry)
    (amounts : List String) (sd : StructuredData) : ScrapedContentPipe :=
  { url := url
    title := title
    markdown_content := markdown_content
    metadata :=
      { title := title
        content_length := markdown_content.length
        images_count := images.length
        links_count := links.length
        amounts_found := amounts.length
        has_tables := decide (0 < sd.tables.length)
        has_lists := decide (0 < sd.lists.length)
        headings_count := headingsTotal sd.headings }
    images := images.take 20
    links := links.take 50
    amounts := amounts
    structured_data := sd }

/-- An empty `StructuredData` bundle, used for concrete inputs. -/
def emptySD : StructuredData :=
  { tables := [], lists := [], headings := []
    contact_info := { emails := [], phones := [], names := [] }
    dates := [] }

/-! ## Phone-number post-processing (`main.py` lines 95 and 110-114) -/

/-- ASCII whitespace as stripped by Python `str.strip()` (no claim touches
the non-ASCII Unicode space classes). -/
def isSpaceChar (c : Char) : Bool :=
  c = ' ' || c = '\t' || c = '\n' || c = '\r' || c = '\x0b' || c = '\x0c'

/-- Python `str.strip()` on the underlying character list: remove
whitespace from the tail end and from the front. -/
def stripChars (l : List Char) : List Char :=
  (l.rdropWhile isSpaceChar).dropWhile isSpaceChar

/-- Python `str.strip()`. -/
def pyStrip (s : String) : String := ⟨stripChars s.data⟩

/-- Python `str.isspace()`: nonempty and consisting of whitespace only. -/
def pyIsSpace (s : String) : Bool := !s.data.isEmpty && s.data.all isSpaceChar

/-- The guard of the phone comprehension (`main.py` lines 95 and 270):
`phone.strip() and not phone.strip().isspace() and len(phone.strip()) > 6
and any(c.isdigit() for c in phone)`. -/
def phoneKeep (phone : String) : Bool :=
  decide (pyStrip phone ≠ "") && !pyIsSpace (pyStrip phone) &&
    decide (6 < (pyStrip phone).length) && phone.data.any Char.isDigit

/-- `[phone.strip() for phone in re.findall(phone_pattern, text) if ...]`,
parameterised by the raw regex matches of the phone pattern. -/
def phones_post (ms : List String) : List String :=
  (ms.filter phoneKeep).map pyStrip

/-- `structured["contact_info"]["phones"] = list(set(phones))`
(`main.py` line 112), parameterised by the raw regex matches (Python's set
iteration order is unspecified; `List.dedup` realises one such order). -/
def contact_phones (ms : List String) : List String :=
  (phones_post ms).dedup

lemma dropWhile_stripChars (l : List Char) :
    (stripChars l).dropWhile isSpaceChar = stripChars l := by
  unfold stripChars
  exact List.dropWhile_idempotent _ _

lemma getLast_cast {xs ys : List Char} (h : xs = ys) (hx : xs ≠ []) :
    xs.getLast hx = ys.getLast (h ▸ hx) := by
  cases h
  rfl

lemma rdropWhile_stripChars (l : List Char) :
    (stripChars l).rdropWhile isSpaceChar = stripChars l := by
  rw [List.rdropWhile_eq_self_iff]
  intro hne
  obtain ⟨t, ht⟩ := List.dropWhile_suffix (l := l.rdropWhile isSpaceChar) isSpaceChar
  have hb : t ++ stripChars l = l.rdropWhile isSpaceChar := ht
  have hbne : l.rdropWhile isSpaceChar ≠ [] := by
    intro h0
    rw [h0] at hb
    exact hne (List.append_eq_nil.mp hb).2
  have hlast : (stripChars l).getLast hne =
      (l.rdropWhile isSpaceChar).getLast hbne := by
    rw [← List.getLast_append' t (stripChars l) hne]
    exact (getLast_cast hb _).trans rfl
  rw [hlast]
  exact List.rdropWhile_last_not _ _ hbne

lemma stripChars_idem (l : List Char) :
    stripChars (stripChars l) = stripChars l := by
  show ((stripChars l).rdropWhile isSpaceChar).dropWhile isSpaceChar = stripChars l
  rw [rdropWhile_stripChars, dropWhile_stripChars]

lemma pyStrip_idem (s : String) : pyStrip (pyStrip s) = pyStrip s :=
  congrArg String.mk (stripChars_idem s.data)

lemma any_dropWhile_of_excl {p q : Char → Bool}
    (hpq : ∀ a, q a = true → p a = false) :
    ∀ l : List Char, l.any q = true → (l.dropWhile p).any q = true := by
  intro l h
  induction l with
  | nil => simp at h
  | cons c t ih =>
    by_cases hc : p c = true
    · rw [List.dropWhile_cons_of_pos hc]
      apply ih
      cases hqc : q c with
      | true =>
        rw [hpq c hqc] at hc
        exact absurd hc (by simp)
      | false =>
        rw [List.any_cons, hqc, Bool.false_or] at h
        exact h
    · rw [List.dropWhile_cons_of_neg (by simpa using hc)]
      exact h

lemma any_reverse_eq (q : Char → Bool) (l : List Char) :
    l.reverse.any q = l.any q := by
  simp [List.any_eq_true]

lemma any_stripChars_of_excl {p q : Char → Bool}
    (hpq : ∀ a, q a = true → p a = false)
    (l : List Char) (h : l.any q = true) :
    ((l.rdropWhile p).dropWhile p).any q = true := by
  apply any_dropWhile_of_excl hpq
  unfold List.rdropWhile
  rw [any_reverse_eq]
  apply any_dropWhile_of_excl hpq
  rwa [any_reverse_eq]

lemma isDigit_not_space (c : Char) (h : c.isDigit = true) :
    isSpaceChar c = false := by
  have n1 : c ≠ ' ' := by intro e; subst e; exact absurd h (by decide)
  have n2 : c ≠ '\t' := by intro e; subst e; exact absurd h (by decide)
  have n3 : c ≠ '\n' := by intro e; subst e; exact absurd h (by decide)
  have n4 : c ≠ '\r' := by intro e; subst e; exact absurd h (by decide)
  have n5 : c ≠ '\x0b' := by intro e; subst e; exact absurd h (by decide)
  have n6 : c ≠ '\x0c' := by intro e; subst e; exact absurd h (by decide)
  simp [isSpaceChar, n1, n2, n3, n4, n5, n6]

/-- C9. Every string in `contact_info.phones` is whitespace-trimmed
(stripping it again changes nothing), has length strictly greater than 6,
and contains at least one ASCII digit: the comprehension guard of
`main.py` line 95 checks `len(phone.strip()) > 6` and
`any(c.isdigit() for c in phone)` on the raw match, and stores
`phone.strip()`, whose digits survive stripping because no digit is
whitespace. -/
theorem contact_phones_invariant (ms : List String) (p : String)
    (hp : p ∈ contact_phones ms) :
    pyStrip p = p ∧ 6 < p.length ∧ p.data.any Char.isDigit = true := by
  have hp' : p ∈ phones_post ms := List.mem_dedup.mp hp
  obtain ⟨q, hq, hpq⟩ := List.mem_map.mp hp'
  have hkeep : phoneKeep q = true := (List.mem_filter.mp hq).2
  simp only [phoneKeep, Bool.and_eq_true, decide_eq_true_eq] at hkeep
  obtain ⟨⟨⟨_, _⟩, hlen⟩, hdig⟩ := hkeep
  subst hpq
  refine ⟨pyStrip_idem q, hlen, ?_⟩
  exact any_stripChars_of_excl (fun a ha => isDigit_not_space a ha) q.data hdig

/-- C9 witness: the invariant evaluated on a concrete match list. -/
theorem contact_phones_invariant_witness :
    pyStrip "555-123-4567" = "555-123-4567" ∧
    6 < "555-123-4567".length ∧
    "555-123-4567".data.any Char.isDigit = true :=
  contact_phones_invariant [" 555-123-4567"] "555-123-4567" (by decide)

/-! ## Orchestrator assembly: image/link caps and metadata counters -/

/-- C1 counterexample. In the `main.py` orchestrator the `images` array is
returned untruncated ("Ya no limitamos a 20 imágenes"): a page with 21
qualifying images yields a `ScrapedContent` whose `images` sequence has 21
entries, contradicting the claimed cap of 20. -/
theorem images_cap_counterexample :
    ¬ ((scrape_assemble_main "http://example.com/" "t" "md" "<body></body>"
        (List.replicate 21 "http://example.com/img.png") [] [] [] []
        emptySD).images.length ≤ 20) := by
  decide

/-- C1 amended. In both orchestrator variants `links` is truncated to its
first 50 entries in encounter order; only the
`controllers/scraper_pipelines.py` variant truncates `images` to its first
20 entries, while the `main.py` variant returns `images` in full. -/
theorem links_capped_images_policy (url title mdc body : String)
    (images : List String) (links : List LinkEntry)
    (amounts emails phones : List String) (sd : StructuredData) :
    (scrape_assemble_main url title mdc body images links amounts emails
        phones sd).links = links.take 50 ∧
    (scrape_assemble_main url title mdc body images links amounts emails
        phones sd).links.length ≤ 50 ∧
    (scrape_assemble_main url title mdc body images links amounts emails
        phones sd).images = images ∧
    (scrape_assemble_pipe url title mdc images links amounts sd).links =
      links.take 50 ∧
    (scrape_assemble_pipe url title mdc images links amounts sd).links.length
      ≤ 50 ∧
    (scrape_assemble_pipe url title mdc images links amounts sd).images =
      images.take 20 ∧
    (scrape_assemble_pipe url title mdc images links amounts sd).images.length
      ≤ 20 := by
  refine ⟨rfl, ?_, rfl, rfl, ?_, rfl, ?_⟩ <;>
    simp [scrape_assemble_main, scrape_assemble_pipe, List.length_take]

/-- C10 counterexample. In the `main.py` orchestrator, a page with 22
qualifying images (more than the claimed cap of 20) has
`metadata.images_count` equal to — not exceeding — the length of the
returned `images` sequence, because that variant does not truncate
`images` at all. -/
theorem metadata_counts_counterexample :
    20 < (scrape_assemble_main "http://example.com/" "t" "md" "<b></b>"
        (List.replicate 22 "http://example.com/i.png") [] [] [] []
        emptySD).metadata.images_count ∧
    (scrape_assemble_main "http://example.com/" "t" "md" "<b></b>"
        (List.replicate 22 "http://example.com/i.png") [] [] [] []
        emptySD).metadata.images_count =
      (scrape_assemble_main "http://example.com/" "t" "md" "<b></b>"
        (List.replicate 22 "http://example.com/i.png") [] [] [] []
        emptySD).images.length := by
  constructor
  · decide
  · rfl

/-- C10 amended. Both orchestrator variants compute `images_count` and
`links_count` from the full pre-truncation arrays, so with more than 50
qualifying links `links_count` exceeds the returned `links` length in both
variants, and with more than 20 qualifying images `images_count` exceeds
the returned `images` length in the pipelines variant; in the `main.py`
variant `images` is untruncated and `images_count` always equals the
returned `images` length. -/
theorem metadata_counts_pretruncation (images : List String)
    (links : List LinkEntry) (h50 : 50 < links.length)
    (h20 : 20 < images.length) (url title mdc body : String)
    (amounts emails phones : List String) (sd : StructuredData) :
    (scrape_assemble_main url title mdc body images links amounts emails
        phones sd).metadata.links_count = links.length ∧
    (scrape_assemble_main url title mdc body images links amounts emails
        phones sd).links.length <
      (scrape_assemble_main url title mdc body images links amounts emails
        phones sd).metadata.links_count ∧
    (scrape_assemble_main url title mdc body images links amounts emails
        phones sd).metadata.images_count =
      (scrape_assemble_main url title mdc body images links amounts emails
        phones sd).images.length ∧
    (scrape_assemble_pipe url title mdc images links amounts sd).links.length
      < (scrape_assemble_pipe url title mdc images links amounts
          sd).metadata.links_count ∧
    (scrape_assemble_pipe url title mdc images links amounts sd).images.length
      < (scrape_assemble_pipe url title mdc images links amounts
          sd).metadata.images_count := by
  refine ⟨rfl, ?_, rfl, ?_, ?_⟩ <;>
    (simp [scrape_assemble_main, scrape_assemble_pipe, List.length_take]
     omega)

/-- C10 witness: the pre-truncation counters evaluated at a page with 51
qualifying links and 21 qualifying images. -/
theorem metadata_counts_pretruncation_witness :
    (scrape_assemble_pipe "u" "t" "m" (List.replicate 21 "i")
        (List.replicate 51 ⟨"a", "h"⟩) [] emptySD).links.length <
      (scrape_assemble_pipe "u" "t" "m" (List.replicate 21 "i")
        (List.replicate 51 ⟨"a", "h"⟩) [] emptySD).metadata.links_count ∧
    (scrape_assemble_pipe "u" "t" "m" (List.replicate 21 "i")
        (List.replicate 51 ⟨"a", "h"⟩) [] emptySD).images.length <
      (scrape_assemble_pipe "u" "t" "m" (List.replicate 21 "i")
        (List.replicate 51 ⟨"a", "h"⟩) [] emptySD).metadata.images_count := by
  have h := metadata_counts_pretruncation (List.replicate 21 "i")
    (List.replicate 51 ⟨"a", "h"⟩) (by decide) (by decide) "u" "t" "m" ""
    [] [] [] emptySD
  exact ⟨h.2.2.2.1, h.2.2.2.2⟩

/-! ## DOM model for the BeautifulSoup-based extractors

A parsed HTML document is a forest of nodes; an element carries its tag
name, the (multi-valued) `class` attribute, and its children. The parser
itself is out of scope: the extractors receive the parsed tree. -/

/-- A DOM node: an element with tag, class list and children, or a text
fragment (`NavigableString`). -/
inductive Node where
  | elem (tag : String) (classes : List String) (children : List Node) : Node
  | text (s : String) : Node
deriving Repr

/-- The children of a node (text fragments have none). -/
def childrenOf : Node → List Node
  | .elem _ _ ch => ch
  | .text _ => []

mutual

/-- `element.decompose()` applied below one node: an element whose tag is
in `bad` is removed together with its whole subtree, as in the loop
`for element in soup(['script', ...]): element.decompose()` of
`clean_and_organize_content` (`main.py` lines 138-139). -/
def removeTagsNode (bad : List String) : Node → Option Node
  | .text s => some (.text s)
  | .elem t c ch =>
    if t ∈ bad then none else some (.elem t c (removeTagsList bad ch))

/-- The tag removal over a forest. -/
def removeTagsList (bad : List String) : List Node → List Node
  | [] => []
  | n :: ns =>
    match removeTagsNode bad n with
    | some m => m :: removeTagsList bad ns
    | none => removeTagsList bad ns

end

mutual

/-- `soup.find(tag)` below one node: the node itself if its tag matches,
else the first match among its descendants in document order. -/
def findTagNode (tag : String) : Node → Option Node
  | .text _ => none
  | .elem t c ch =>
    if t = tag then some (.elem t c ch) else findTagList tag ch

/-- `soup.find(tag)` over a forest: first match in document order. -/
def findTagList (tag : String) : List Node → Option Node
  | [] => none
  | n :: ns =>
    match findTagNode tag n with
    | some m => some m
    | none => findTagList tag ns

end

/-- `soup.find(tag)` on the whole document. -/
def findTag (tag : String) (doc : List Node) : Option Node :=
  findTagList tag doc

/-- `pat` occurs as a contiguous substring of `s`. -/
def containsSub (pat : List Char) : List Char → Bool
  | [] => pat.isEmpty
  | c :: t => pat.isPrefixOf (c :: t) || containsSub pat t

/-- `re.compile('content|main|article')` searched against one class value:
an unanchored `re.search`, i.e. a substring test for any of the three
alternatives. -/
def contentClassMatch (c : String) : Bool :=
  containsSub "content".data c.data || containsSub "main".data c.data ||
    containsSub "article".data c.data

mutual

/-- `soup.find('div', class_=re.compile('content|main|article'))` below
one node: the first `div` in document order one of whose classes matches
the pattern. -/
def findContentDivNode : Node → Option Node
  | .text _ => none
  | .elem t cs ch =>
    if t = "div" && cs.any contentClassMatch then some (.elem t cs ch)
    else findContentDivList ch

/-- The content-`div` search over a forest. -/
def findContentDivList : List Node → Option Node
  | [] => none
  | n :: ns =>
    match findContentDivNode n with
    | some m => some m
    | none => findContentDivList ns

end

/-- The content-`div` search on the whole document. -/
def findContentDiv (doc : List Node) : Option Node :=
  findContentDivList doc

/-- The `class` attribute as serialised by `str(tag)`. -/
def classAttr (cs : List String) : String :=
  if cs.isEmpty then ""
  else " class=\"" ++ String.intercalate " " cs ++ "\""

mutual

/-- `str(tag)`: serialise one node back to HTML. -/
def nodeHtml : Node → String
  | .text s => s
  | .elem t cs ch =>
    "<" ++ t ++ classAttr cs ++ ">" ++ forestHtml ch ++ "</" ++ t ++ ">"

/-- `str(soup)` over a forest: the concatenated serialisation. -/
def forestHtml : List Node → String
  | [] => ""
  | n :: ns => nodeHtml n ++ forestHtml ns

end

/-- The tags decomposed by `clean_and_organize_content`. -/
def unwantedTags : List String :=
  ["script", "style", "nav", "footer", "header", "aside"]

/-- `ContentProcessor.clean_and_organize_content` (`main.py`
lines 132-147): decompose the unwanted tags, then
`soup.find('main') or soup.find('article') or soup.find('div',
class_=re.compile('content|main|article'))` (a found tag is always truthy
in BeautifulSoup), serialising the selected root, or the whole cleaned
document when nothing matched. -/
def clean_and_organize_content (doc : List Node) : String :=
  let cleaned := removeTagsList unwantedTags doc
  match findTag "main" cleaned with
  | some m => nodeHtml m
  | none =>
    match findTag "article" cleaned with
    | some a => nodeHtml a
    | none =>
      match findContentDiv cleaned with
      | some d => nodeHtml d
      | none => forestHtml cleaned

mutual

/-- The text fragments below a node, in document order. -/
def textFragments : Node → List String
  | .text s => [s]
  | .elem _ _ ch => textFragmentsList ch

/-- The text fragments below a forest. -/
def textFragmentsList : List Node → List String
  | [] => []
  | n :: ns => textFragments n ++ textFragmentsList ns

end

/-- `tag.get_text(strip=True)`: each text fragment is stripped, empty
results are skipped, and the rest are concatenated. -/
def getTextStrip (n : Node) : String :=
  String.join (((textFragments n).map pyStrip).filter (fun s => s ≠ ""))

mutual

/-- `tag.find_all(tags)` below one node: the node itself when its tag is
in `tags`, followed by every matching descendant in document order
(`find_all` is recursive by default). -/
def findAllTagsNode (tags : List String) : Node → List Node
  | .text _ => []
  | .elem t c ch =>
    (if t ∈ tags then [Node.elem t c ch] else []) ++ findAllTagsList tags ch

/-- `find_all` over a forest. -/
def findAllTagsList (tags : List String) : List Node → List Node
  | [] => []
  | n :: ns => findAllTagsNode tags n ++ findAllTagsList tags ns

end

/-- `tag.find_all(tags)` applied to a forest (e.g. the children of an
element, so that the element itself is not a candidate). -/
def findAllTags (tags : List String) (ns : List Node) : List Node :=
  findAllTagsList tags ns

/-- The row loop of the table extractor (`main.py` lines 69-73): for every
`tr` below the table, the texts of its `td`/`th` descendants; a row is
appended only when `if row:` holds, i.e. when it has at least one cell —
a row all of whose cells are empty strings is a nonempty list and is
kept. -/
def tableRows (tbl : Node) : List (List String) :=
  ((findAllTags ["tr"] (childrenOf tbl)).map
      (fun tr => (findAllTags ["td", "th"] (childrenOf tr)).map getTextStrip)).filter
    (fun row => row ≠ [])

/-- The table extractor of `extract_structured_data` (`main.py`
lines 66-75): a table is appended only when `if rows:` holds. -/
def extract_tables (doc : List Node) : List (List (List String)) :=
  ((findAllTags ["table"] doc).map tableRows).filter (fun rows => rows ≠ [])

/-- The items of one list element (`main.py` line 79):
`[li.get_text(strip=True) for li in ul.find_all('li')]` — `find_all`
collects every `li` descendant, not only direct children. -/
def listItems (u : Node) : List String :=
  (findAllTags ["li"] (childrenOf u)).map getTextStrip

/-- The list extractor of `extract_structured_data` (`main.py`
lines 77-81): one entry per `ul`/`ol` with a nonempty item list. -/
def extract_lists (doc : List Node) : List (List String) :=
  ((findAllTags ["ul", "ol"] doc).map listItems).filter (fun l => l ≠ [])

/-- Modelled from the spec: the list items the specification describes,
"collect trimmed item text from direct `<li>` descendants" — only the
`li` elements that are direct children of the `ul`/`ol`. Used solely to
compare the spec's reading against the code's `find_all` behaviour. -/
def spec_listItems (u : Node) : List String :=
  ((childrenOf u).filter
      (fun n => match n with | .elem t _ _ => t = "li" | .text _ => false)).map
    getTextStrip

/-- Modelled from the spec: the list extractor as the specification words
it (direct `li` children only, empty lists skipped). -/
def spec_extract_lists (doc : List Node) : List (List String) :=
  ((findAllTags ["ul", "ol"] doc).map spec_listItems).filter (fun l => l ≠ [])

/-- The document `<table><tr><td></td></tr></table>`. -/
def tableDoc : List Node :=
  [.elem "table" [] [.elem "tr" [] [.elem "td" [] []]]]

/-- A `<ul>` whose only `<li>` contains the text `A` and a nested
`<ul><li>B</li></ul>`. -/
def nestedListDoc : List Node :=
  [.elem "ul" []
    [.elem "li" [] [.text "A", .elem "ul" [] [.elem "li" [] [.text "B"]]]]]

/-- A body holding an `<article>` (first) and a `<main>` (second). -/
def bothDoc : List Node :=
  [.elem "body" []
    [.elem "article" [] [.text "Article text"],
     .elem "main" [] [.text "Main text"]]]

/-! ## C2: table rows with empty-string cells -/

/-- C2 counterexample. The row guard is `if row:`, which only drops rows
with zero cells: on `<table><tr><td></td></tr></table>` the row `[""]` is
a nonempty list, so the document yields one table `[[""]]`, not zero
tables as claimed. -/
theorem tables_empty_cell_counterexample :
    extract_tables tableDoc = [[[""]]] ∧ extract_tables tableDoc ≠ [] := by
  constructor
  · decide
  · decide

/-- C2 amended. A table row with zero cells is excluded from its table and
a table in which every row is excluded contributes no entry, but a row
whose cells are all empty strings after trimming is kept:
`<table><tr><td></td></tr></table>` yields the single table `[[""]]`. -/
theorem tables_nonempty_rows (doc : List Node) :
    (∀ tbl ∈ extract_tables doc, tbl ≠ [] ∧ ∀ row ∈ tbl, row ≠ []) ∧
    extract_tables tableDoc = [[[""]]] := by
  constructor
  · intro tbl htbl
    have h1 := List.mem_filter.mp htbl
    refine ⟨of_decide_eq_true h1.2, ?_⟩
    obtain ⟨t, _, htt⟩ := List.mem_map.mp h1.1
    intro row hrow
    rw [← htt] at hrow
    exact of_decide_eq_true (List.mem_filter.mp hrow).2
  · decide

/-- C2 witness: the amended claim evaluated on the document
`<table><tr><td></td></tr></table>` and its kept row. -/
theorem tables_nonempty_rows_witness :
    extract_tables tableDoc = [[[""]]] ∧ ([""] : List String) ≠ [] :=
  ⟨(tables_nonempty_rows tableDoc).2,
   ((tables_nonempty_rows tableDoc).1 [[""]] (by decide)).2 [""] (by decide)⟩

/-! ## C4: list items and nested lists -/

/-- C4 counterexample. `ul.find_all('li')` is recursive, so on
`<ul><li>A<ul><li>B</li></ul></li></ul>` the inner `li` ("B") also appears
as an item of the outer list, unlike the direct-children extraction the
claim describes. -/
theorem lists_direct_children_counterexample :
    extract_lists nestedListDoc = [["AB", "B"], ["B"]] ∧
    spec_extract_lists nestedListDoc = [["AB"], ["B"]] ∧
    extract_lists nestedListDoc ≠ spec_extract_lists nestedListDoc := by
  refine ⟨by decide, by decide, by decide⟩

/-- C4 amended. For every `<ul>`/`<ol>`, the items are built from all of
its `<li>` descendants (so an `li` of a nested inner list also appears as
an item of the outer list), and a list yielding zero items is omitted:
the produced lists are exactly the nonempty `listItems` of the `ul`/`ol`
elements. -/
theorem lists_all_descendants (doc : List Node) :
    (∀ l ∈ extract_lists doc,
      l ≠ [] ∧ ∃ u ∈ findAllTags ["ul", "ol"] doc, l = listItems u) ∧
    (∀ u ∈ findAllTags ["ul", "ol"] doc,
      listItems u ≠ [] → listItems u ∈ extract_lists doc) := by
  constructor
  · intro l hl
    have h1 := List.mem_filter.mp hl
    refine ⟨of_decide_eq_true h1.2, ?_⟩
    obtain ⟨u, hu, huu⟩ := List.mem_map.mp h1.1
    exact ⟨u, hu, huu.symm⟩
  · intro u hu hne
    exact List.mem_filter.mpr ⟨List.mem_map_of_mem listItems hu,
      decide_eq_true hne⟩

/-- C4 witness: the amended characterisation evaluated on the nested-list
document at the outer list's item list. -/
theorem lists_all_descendants_witness :
    (["AB", "B"] : List String) ≠ [] ∧
    ∃ u ∈ findAllTags ["ul", "ol"] nestedListDoc, ["AB", "B"] = listItems u :=
  (lists_all_descendants nestedListDoc).1 ["AB", "B"] (by decide)

/-! ## C5: content-root selection priority -/

/-- C5. `clean_and_organize_content` selects the content root by strict
priority over the document cleaned of script/style/nav/footer/header/aside
subtrees: a `<main>` element if one exists (regardless of any
`<article>`), otherwise the first `<article>`, otherwise the first `div`
with a content/main/article class, otherwise the whole cleaned document is
serialised. -/
theorem clean_content_priority (doc : List Node) :
    (∀ m, findTag "main" (removeTagsList unwantedTags doc) = some m →
      clean_and_organize_content doc = nodeHtml m) ∧
    (findTag "main" (removeTagsList unwantedTags doc) = none →
      ∀ a, findTag "article" (removeTagsList unwantedTags doc) = some a →
        clean_and_organize_content doc = nodeHtml a) ∧
    (findTag "main" (removeTagsList unwantedTags doc) = none →
      findTag "article" (removeTagsList unwantedTags doc) = none →
      ∀ d, findContentDiv (removeTagsList unwantedTags doc) = some d →
        clean_and_organize_content doc = nodeHtml d) ∧
    (findTag "main" (removeTagsList unwantedTags doc) = none →
      findTag "article" (removeTagsList unwantedTags doc) = none →
      findContentDiv (removeTagsList unwantedTags doc) = none →
      clean_and_organize_content doc =
        forestHtml (removeTagsList unwantedTags doc)) := by
  refine ⟨?_, ?_, ?_, ?_⟩
  · intro m hm
    simp [clean_and_organize_content, hm]
  · intro hm a ha
    simp [clean_and_organize_content, hm, ha]
  · intro hm ha d hd
    simp [clean_and_organize_content, hm, ha, hd]
  · intro hm ha hd
    simp [clean_and_organize_content, hm, ha, hd]

/-- C5 witness: on a document holding both an `<article>` (earlier) and a
`<main>` (later), the `<main>` element is the serialised root. -/
theorem clean_content_priority_witness :
    clean_and_organize_content bothDoc = "<main>Main text</main>" :=
  ((clean_content_priority bothDoc).1
    (.elem "main" [] [.text "Main text"]) rfl).trans rfl

/-! ## C3: exception flow of the structured-data extraction

`extract_structured_data` (`main.py` lines 55-130) is a straight-line
body with no `try` around any sub-extraction, so a Python exception raised
while computing one category propagates out of the function at once; in
`scrape_url_content` the whole processing block (lines 241-278) sits in a
single `try` whose handler raises `HTTPException(500)`. We model each
category's computation as an `Except String` value (`.error e` standing
for a raised exception with message `e`) and sequence them exactly in
source order. -/

/-- The exception flow of `ContentProcessor.extract_structured_data`: the
five category computations run in source order (tables, lists, headings,
contact info, dates); the first raised exception propagates. -/
def extract_structured_exc (tables : Except String (List (List (List String))))
    (lists : Except String (List (List String)))
    (headings : Except String (List (String × List String)))
    (contact : Except String ContactInfo)
    (dates : Except String (List String)) : Except String StructuredData :=
  match tables with
  | .error e => .error e
  | .ok t =>
    match lists with
    | .error e => .error e
    | .ok l =>
      match headings with
      | .error e => .error e
      | .ok h =>
        match contact with
        | .error e => .error e
        | .ok c =>
          match dates with
          | .error e => .error e
          | .ok d =>
            .ok { tables := t, lists := l, headings := h, contact_info := c
                  dates := d }

/-- The exception flow of the processing block of `scrape_url_content`
(`main.py` lines 241-278): cleaning, markdown rendering, amount
extraction and structured-data extraction run in one `try`; the first
raised exception aborts the block (the handler re-raises it as an HTTP
500 error). -/
def scrape_process_exc (clean mdr : Except String String)
    (amounts : Except String (List String))
    (sd : Except String StructuredData) :
    Except String (String × String × List String × StructuredData) :=
  match clean with
  | .error e => .error e
  | .ok ch =>
    match mdr with
    | .error e => .error e
    | .ok m =>
      match amounts with
      | .error e => .error e
      | .ok am =>
        match sd with
        | .error e => .error e
        | .ok s => .ok (ch, m, am, s)

/-- C3 counterexample. A failing tables extraction aborts the whole
structured-data computation: with every other category succeeding (the
lists category would produce `[["x"]]`), the result is the propagated
error, not a partial bundle in which the other categories survive. -/
theorem extraction_no_isolation_counterexample :
    extract_structured_exc (.error "tables failed") (.ok [["x"]]) (.ok [])
        (.ok { emails := [], phones := [], names := [] }) (.ok []) =
      .error "tables failed" ∧
    ¬ ∃ sd, extract_structured_exc (.error "tables failed") (.ok [["x"]])
        (.ok []) (.ok { emails := [], phones := [], names := [] })
        (.ok []) = .ok sd := by
  constructor
  · rfl
  · rintro ⟨sd, h⟩
    exact Except.noConfusion h

/-- C3 amended. The sub-extractions are not fault-isolated: an exception
in any category propagates out of `extract_structured_data` (the first
error in source order is the result), a successful result requires every
category to have succeeded (no partial bundle exists), and the
orchestrator's processing block turns any such error into a failure of
the whole request. -/
theorem extraction_no_isolation
    (tables : Except String (List (List (List String))))
    (lists : Except String (List (List String)))
    (headings : Except String (List (String × List String)))
    (contact : Except String ContactInfo)
    (dates : Except String (List String))
    (clean mdr : Except String String)
    (amounts : Except String (List String)) :
    (∀ e, tables = .error e →
      extract_structured_exc tables lists headings contact dates = .error e) ∧
    (∀ sd, extract_structured_exc tables lists headings contact dates = .ok sd →
      tables = .ok sd.tables ∧ lists = .ok sd.lists ∧
      headings = .ok sd.headings ∧ contact = .ok sd.contact_info ∧
      dates = .ok sd.dates) ∧
    (∀ e, extract_structured_exc tables lists headings contact dates = .error e →
      clean = .ok "" → mdr = .ok "" → amounts = .ok [] →
      scrape_process_exc clean mdr amounts
        (extract_structured_exc tables lists headings contact dates) =
        .error e) := by
  refine ⟨?_, ?_, ?_⟩
  · intro e he
    subst he
    rfl
  · intro sd h
    cases tables with
    | error e => exact Except.noConfusion h
    | ok t =>
      cases lists with
      | error e => exact Except.noConfusion h
      | ok l =>
        cases headings with
        | error e => exact Except.noConfusion h
        | ok hh =>
          cases contact with
          | error e => exact Except.noConfusion h
          | ok c =>
            cases dates with
            | error e => exact Except.noConfusion h
            | ok d =>
              injection h with h2
              subst h2
              exact ⟨rfl, rfl, rfl, rfl, rfl⟩
  · intro e he hc hm ha
    subst hc hm ha
    rw [he]
    rfl

/-- C3 witness: the non-isolation evaluated at a concrete failing
contact-info extraction with all other categories succeeding. -/
theorem extraction_no_isolation_witness :
    extract_structured_exc (.ok []) (.ok []) (.ok [])
        (.error "contact regex failed") (.ok []) = .error "contact regex failed" ∧
    scrape_process_exc (.ok "") (.ok "") (.ok [])
        (extract_structured_exc (.ok []) (.ok []) (.ok [])
          (.error "contact regex failed") (.ok [])) =
      .error "contact regex failed" := by
  have h := extraction_no_isolation (Except.ok []) (.ok []) (.ok [])
    (.error "contact regex failed") (.ok []) (.ok "") (.ok "") (.ok [])
  have h1 : extract_structured_exc (.ok []) (.ok []) (.ok [])
      (.error "contact regex failed") (.ok []) = .error "contact regex failed" := rfl
  exact ⟨h1, h.2.2 "contact regex failed" h1 rfl rfl rfl⟩

/-! ## C6, C7: the cookie-dialog resolver `handle_cookie_dialogs`

`handle_cookie_dialogs` (`main.py` lines 512-604) interacts with a live
page only through bounded click/locate/count calls, each of which may
raise; every such call sits in its own `try/except` whose handler moves to
the next candidate, and the whole body sits in a final `try/except` that
returns `False`. We model the page as an oracle giving each call's
outcome (`.ok` result or `.error` message, i.e. a raised exception), model
the fixed waits (`wait_for_timeout`) as pure no-ops, and instrument the
run with a trace of the attempts made so the strategy order is
observable. -/

/-- One attempt the resolver makes against the page. -/
inductive Attempt where
  | textClick (label : String) : Attempt
  | selectorClick (sel : String) : Attempt
  | frameClick (frame : Nat) (label : String) : Attempt
deriving DecidableEq, Repr

/-- An embedded frame, as used by the frame-scoped retry: it supports
locating by exact text and clicking. -/
structure FramePage where
  textCount : String → Except String Nat
  textClick : String → Except String Unit

/-- The live page oracle: the outcome of clicking by exact text
(`page.click(f'text="{button}"')`), of counting and clicking a CSS
selector, and the embedded frames. -/
structure Page where
  textClick : String → Except String Unit
  selectorCount : String → Except String Nat
  selectorClick : String → Except String Unit
  frames : List FramePage

/-- The `consent_buttons` label list (`main.py` lines 516-534), in source
order. -/
def consent_buttons : List String :=
  ["I Accept", "Accept All", "Accept", "Agree to all", "Agree", "Continue",
   "OK", "Got it", "Allow", "Allow all", "Allow cookies", "Allow all cookies",
   "Yes", "Acepto", "Aceptar", "Alle akzeptieren"]

/-- The `common_cookie_selectors` list (`main.py` lines 551-567), in
source order. -/
def common_cookie_selectors : List String :=
  ["button#accept", "button#acceptAll", "button.accept-cookies",
   "button.accept-all-cookies", "button.cookie-accept",
   "button.cookie-accept-all", "button.js-accept-cookies",
   "button.js-accept-all-cookies",
   "button[data-testid=\"cookie-policy-dialog-accept-button\"]",
   "#cookieConsentAcceptAll", ".cookie-banner__accept-all",
   ".cookie-consent__accept", ".cookie-accept-all-button",
   "#onetrust-accept-btn-handler", ".css-47sehv"]

/-- The text-match strategy (`main.py` lines 540-548): for each label in
order, try `page.click(f'text="{button}"')`; an exception moves to the
next label, the first successful click returns success. -/
def tryConsentButtons (click : String → Except String Unit) :
    List String → Bool × List Attempt
  | [] => (false, [])
  | b :: rest =>
    match click b with
    | .ok _ => (true, [.textClick b])
    | .error _ =>
      let r := tryConsentButtons click rest
      (r.1, .textClick b :: r.2)

/-- The selector strategy (`main.py` lines 569-577): for each selector in
order, if `page.locator(selector).count() > 0` then click it; any
exception moves on to the next selector. -/
def trySelectors (countF : String → Except String Nat)
    (clickF : String → Except String Unit) :
    List String → Bool × List Attempt
  | [] => (false, [])
  | s :: rest =>
    match countF s with
    | .ok n =>
      if 0 < n then
        match clickF s with
        | .ok _ => (true, [.selectorClick s])
        | .error _ =>
          let r := trySelectors countF clickF rest
          (r.1, .selectorClick s :: r.2)
      else
        let r := trySelectors countF clickF rest
        (r.1, .selectorClick s :: r.2)
    | .error _ =>
      let r := trySelectors countF clickF rest
      (r.1, .selectorClick s :: r.2)

/-- The per-frame text retry (`main.py` lines 584-593): for each label, if
the frame locates it then click it; exceptions move to the next label. -/
def tryFrameButtons (f : FramePage) (idx : Nat) :
    List String → Bool × List Attempt
  | [] => (false, [])
  | b :: rest =>
    match f.textCount b with
    | .ok n =>
      if 0 < n then
        match f.textClick b with
        | .ok _ => (true, [.frameClick idx b])
        | .error _ =>
          let r := tryFrameButtons f idx rest
          (r.1, .frameClick idx b :: r.2)
      else
        let r := tryFrameButtons f idx rest
        (r.1, .frameClick idx b :: r.2)
    | .error _ =>
      let r := tryFrameButtons f idx rest
      (r.1, .frameClick idx b :: r.2)

/-- The frame-scoped retry (`main.py` lines 580-597) over all frames. -/
def tryFrames (idx : Nat) : List FramePage → Bool × List Attempt
  | [] => (false, [])
  | f :: rest =>
    let r := tryFrameButtons f idx consent_buttons
    if r.1 then r
    else
      let r2 := tryFrames (idx + 1) rest
      (r2.1, r.2 ++ r2.2)

/-- `handle_cookie_dialogs` (`main.py` lines 512-604), with the attempt
trace: the three strategies run in order, the first success short-circuits
and returns `True`; when all are exhausted the function returns `False`.
The result is an `Except` to make "the call raised" expressible: since
every page interaction is guarded by its own `try/except` and the whole
body by a final `try/except` returning `False`, the modelled result is
always `.ok`. -/
def handle_cookie_dialogs (p : Page) : Except String Bool × List Attempt :=
  let t := tryConsentButtons p.textClick consent_buttons
  if t.1 then (.ok true, t.2)
  else
    let s := trySelectors p.selectorCount p.selectorClick common_cookie_selectors
    if s.1 then (.ok true, t.2 ++ s.2)
    else
      let f := tryFrames 0 p.frames
      if f.1 then (.ok true, t.2 ++ s.2 ++ f.2)
      else (.ok false, t.2 ++ s.2 ++ f.2)

/-- Some consent-button label clicks successfully on the page. -/
def textSuccess (p : Page) : Prop :=
  ∃ b ∈ consent_buttons, p.textClick b = .ok ()

/-- Some known cookie selector is present (positive count) and clicks
successfully. -/
def selectorSuccess (p : Page) : Prop :=
  ∃ s ∈ common_cookie_selectors,
    (∃ n, p.selectorCount s = .ok n ∧ 0 < n) ∧ p.selectorClick s = .ok ()

/-- Some frame locates a consent-button label and clicks it
successfully. -/
def frameSuccess (p : Page) : Prop :=
  ∃ f ∈ p.frames, ∃ b ∈ consent_buttons,
    (∃ n, f.textCount b = .ok n ∧ 0 < n) ∧ f.textClick b = .ok ()

lemma tryConsentButtons_true_iff (click : String → Except String Unit)
    (L : List String) :
    (tryConsentButtons click L).1 = true ↔ ∃ b ∈ L, click b = .ok () := by
  induction L with
  | nil => simp [tryConsentButtons]
  | cons b rest ih =>
    cases hb : click b with
    | ok u =>
      cases u
      simp [tryConsentButtons, hb]
    | error e =>
      simp only [tryConsentButtons, hb, List.mem_cons]
      rw [ih]
      constructor
      · rintro ⟨x, hx, hc⟩
        exact ⟨x, Or.inr hx, hc⟩
      · rintro ⟨x, hx | hx, hc⟩
        · subst hx
          rw [hb] at hc
          cases hc
        · exact ⟨x, hx, hc⟩

lemma trySelectors_true_iff (countF : String → Except String Nat)
    (clickF : String → Except String Unit) (L : List String) :
    (trySelectors countF clickF L).1 = true ↔
      ∃ s ∈ L, (∃ n, countF s = .ok n ∧ 0 < n) ∧ clickF s = .ok () := by
  induction L with
  | nil => simp [trySelectors]
  | cons s rest ih =>
    cases hn : countF s with
    | ok n =>
      by_cases hpos : 0 < n
      · cases hc : clickF s with
        | ok u =>
          cases u
          constructor
          · intro _
            exact ⟨s, List.mem_cons_self s rest, ⟨n, hn, hpos⟩, hc⟩
          · intro _
            simp [trySelectors, hn, hpos, hc]
        | error e =>
          have hstep : (trySelectors countF clickF (s :: rest)).1 =
              (trySelectors countF clickF rest).1 := by
            simp [trySelectors, hn, hpos, hc]
          rw [hstep, ih]
          constructor
          · rintro ⟨x, hx, hcnt, hclk⟩
            exact ⟨x, List.mem_cons_of_mem s hx, hcnt, hclk⟩
          · rintro ⟨x, hx, hcnt, hclk⟩
            rcases List.mem_cons.mp hx with hxs | hxr
            · subst hxs
              rw [hc] at hclk
              exact Except.noConfusion hclk
            · exact ⟨x, hxr, hcnt, hclk⟩
      · have hstep : (trySelectors countF clickF (s :: rest)).1 =
            (trySelectors countF clickF rest).1 := by
          simp [trySelectors, hn, hpos]
        rw [hstep, ih]
        constructor
        · rintro ⟨x, hx, hcnt, hclk⟩
          exact ⟨x, List.mem_cons_of_mem s hx, hcnt, hclk⟩
        · rintro ⟨x, hx, ⟨m, hm, hmpos⟩, hclk⟩
          rcases List.mem_cons.mp hx with hxs | hxr
          · subst hxs
            rw [hn] at hm
            injection hm with hnm
            subst hnm
            exact absurd hmpos hpos
          · exact ⟨x, hxr, ⟨m, hm, hmpos⟩, hclk⟩
    | error e =>
      have hstep : (trySelectors countF clickF (s :: rest)).1 =
          (trySelectors countF clickF rest).1 := by
        simp [trySelectors, hn]
      rw [hstep, ih]
      constructor
      · rintro ⟨x, hx, hcnt, hclk⟩
        exact ⟨x, List.mem_cons_of_mem s hx, hcnt, hclk⟩
      · rintro ⟨x, hx, ⟨m, hm, hmpos⟩, hclk⟩
        rcases List.mem_cons.mp hx with hxs | hxr
        · subst hxs
          rw [hn] at hm
          exact Except.noConfusion hm
        · exact ⟨x, hxr, ⟨m, hm, hmpos⟩, hclk⟩

lemma tryFrameButtons_true_iff (f : FramePage) (idx : Nat) (L : List String) :
    (tryFrameButtons f idx L).1 = true ↔
      ∃ b ∈ L, (∃ n, f.textCount b = .ok n ∧ 0 < n) ∧
        f.textClick b = .ok () := by
  induction L with
  | nil => simp [tryFrameButtons]
  | cons b rest ih =>
    cases hn : f.textCount b with
    | ok n =>
      by_cases hpos : 0 < n
      · cases hc : f.textClick b with
        | ok u =>
          cases u
          constructor
          · intro _
            exact ⟨b, List.mem_cons_self b rest, ⟨n, hn, hpos⟩, hc⟩
          · intro _
            simp [tryFrameButtons, hn, hpos, hc]
        | error e =>
          have hstep : (tryFrameButtons f idx (b :: rest)).1 =
              (tryFrameButtons f idx rest).1 := by
            simp [tryFrameButtons, hn, hpos, hc]
          rw [hstep, ih]
          constructor
          · rintro ⟨x, hx, hcnt, hclk⟩
            exact ⟨x, List.mem_cons_of_mem b hx, hcnt, hclk⟩
          · rintro ⟨x, hx, hcnt, hclk⟩
            rcases List.mem_cons.mp hx with hxs | hxr
            · subst hxs
              rw [hc] at hclk
              exact Except.noConfusion hclk
            · exact ⟨x, hxr, hcnt, hclk⟩
      · have hstep : (tryFrameButtons f idx (b :: rest)).1 =
            (tryFrameButtons f idx rest).1 := by
          simp [tryFrameButtons, hn, hpos]
        rw [hstep, ih]
        constructor
        · rintro ⟨x, hx, hcnt, hclk⟩
          exact ⟨x, List.mem_cons_of_mem b hx, hcnt, hclk⟩
        · rintro ⟨x, hx, ⟨m, hm, hmpos⟩, hclk⟩
          rcases List.mem_cons.mp hx with hxs | hxr
          · subst hxs
            rw [hn] at hm
            injection hm with hnm
            subst hnm
            exact absurd hmpos hpos
          · exact ⟨x, hxr, ⟨m, hm, hmpos⟩, hclk⟩
    | error e =>
      have hstep : (tryFrameButtons f idx (b :: rest)).1 =
          (tryFrameButtons f idx rest).1 := by
        simp [tryFrameButtons, hn]
      rw [hstep, ih]
      constructor
      · rintro ⟨x, hx, hcnt, hclk⟩
        exact ⟨x, List.mem_cons_of_mem b hx, hcnt, hclk⟩
      · rintro ⟨x, hx, ⟨m, hm, hmpos⟩, hclk⟩
        rcases List.mem_cons.mp hx with hxs | hxr
        · subst hxs
          rw [hn] at hm
          exact Except.noConfusion hm
        · exact ⟨x, hxr, ⟨m, hm, hmpos⟩, hclk⟩

lemma tryFrames_true_iff (fs : List FramePage) : ∀ idx : Nat,
    (tryFrames idx fs).1 = true ↔
      ∃ f ∈ fs, ∃ b ∈ consent_buttons,
        (∃ n, f.textCount b = .ok n ∧ 0 < n) ∧ f.textClick b = .ok () := by
  induction fs with
  | nil =>
    intro idx
    simp [tryFrames]
  | cons f rest ih =>
    intro idx
    by_cases hf : (tryFrameButtons f idx consent_buttons).1 = true
    · have hres : (tryFrames idx (f :: rest)).1 = true := by
        simp [tryFrames, hf]
      constructor
      · intro _
        obtain ⟨b, hb, h1, h2⟩ :=
          (tryFrameButtons_true_iff f idx consent_buttons).mp hf
        exact ⟨f, List.mem_cons_self f rest, b, hb, h1, h2⟩
      · intro _
        exact hres
    · have hf' : (tryFrameButtons f idx consent_buttons).1 = false :=
        Bool.eq_false_iff.mpr hf
      have hstep : (tryFrames idx (f :: rest)).1 =
          (tryFrames (idx + 1) rest).1 := by
        simp [tryFrames, hf']
      rw [hstep, ih (idx + 1)]
      constructor
      · rintro ⟨g, hg, hbex⟩
        exact ⟨g, List.mem_cons_of_mem f hg, hbex⟩
      · rintro ⟨g, hg, hbex⟩
        rcases List.mem_cons.mp hg with hgf | hgr
        · subst hgf
          exact absurd ((tryFrameButtons_true_iff g idx consent_buttons).mpr hbex) hf
        · exact ⟨g, hgr, hbex⟩

lemma handle_cookie_dialogs_fst (p : Page) :
    (handle_cookie_dialogs p).1 =
      .ok (((tryConsentButtons p.textClick consent_buttons).1 ||
          (trySelectors p.selectorCount p.selectorClick
            common_cookie_selectors).1) || (tryFrames 0 p.frames).1) := by
  unfold handle_cookie_dialogs
  cases htb : (tryConsentButtons p.textClick consent_buttons).1 <;>
    cases hsb : (trySelectors p.selectorCount p.selectorClick
      common_cookie_selectors).1 <;>
    cases hfb : (tryFrames 0 p.frames).1 <;> simp [htb, hsb, hfb]

/-- C6. `handle_cookie_dialogs` never propagates an exception: whatever
outcome each individual locate/click call has, the result is `.ok` of a
boolean (never `.error`), the boolean is `True` exactly when some strategy
in the chain succeeds, and it is `False` — not an error — exactly when
every strategy is exhausted without a success. -/
theorem cookie_resolver_never_raises (p : Page) :
    (∃ b : Bool, (handle_cookie_dialogs p).1 = .ok b) ∧
    ((handle_cookie_dialogs p).1 = .ok true ↔
      textSuccess p ∨ selectorSuccess p ∨ frameSuccess p) ∧
    ((handle_cookie_dialogs p).1 = .ok false ↔
      ¬(textSuccess p ∨ selectorSuccess p ∨ frameSuccess p)) := by
  have hbig : (((tryConsentButtons p.textClick consent_buttons).1 ||
      (trySelectors p.selectorCount p.selectorClick
        common_cookie_selectors).1) || (tryFrames 0 p.frames).1) = true ↔
      (textSuccess p ∨ selectorSuccess p ∨ frameSuccess p) := by
    simp only [Bool.or_eq_true]
    rw [tryConsentButtons_true_iff, trySelectors_true_iff,
      tryFrames_true_iff p.frames 0]
    exact or_assoc
  refine ⟨⟨_, handle_cookie_dialogs_fst p⟩, ?_, ?_⟩
  · rw [handle_cookie_dialogs_fst]
    simp only [Except.ok.injEq]
    exact hbig
  · rw [handle_cookie_dialogs_fst]
    simp only [Except.ok.injEq]
    rw [Bool.eq_false_iff]
    exact not_congr hbig

lemma tryConsentButtons_trace (click : String → Except String Unit) :
    ∀ L : List String, ∀ a ∈ (tryConsentButtons click L).2,
      ∃ b, a = Attempt.textClick b := by
  intro L
  induction L with
  | nil => simp [tryConsentButtons]
  | cons b rest ih =>
    intro a ha
    cases hb : click b with
    | ok u =>
      rw [tryConsentButtons, hb] at ha
      rcases List.mem_singleton.mp ha with h
      exact ⟨b, h⟩
    | error e =>
      rw [tryConsentButtons, hb] at ha
      rcases List.mem_cons.mp ha with h | h
      · exact ⟨b, h⟩
      · exact ih a h

/-- C7. The text-match strategy strictly precedes the selector strategy
and the first success short-circuits: on any page where some
consent-button label clicks successfully (e.g. one where both an
"Accept All" button and a `#onetrust-accept-btn-handler` element are
clickable), the resolver returns `True` and every attempt it made was a
text-match attempt — no selector-strategy (or frame) attempt occurs. -/
theorem text_match_precedes_selectors (p : Page) (h : textSuccess p) :
    (handle_cookie_dialogs p).1 = .ok true ∧
    ∀ a ∈ (handle_cookie_dialogs p).2, ∃ b, a = Attempt.textClick b := by
  have htb : (tryConsentButtons p.textClick consent_buttons).1 = true :=
    (tryConsentButtons_true_iff _ _).mpr h
  have hsnd : (handle_cookie_dialogs p).2 =
      (tryConsentButtons p.textClick consent_buttons).2 := by
    simp [handle_cookie_dialogs, htb]
  constructor
  · simp [handle_cookie_dialogs, htb]
  · intro a ha
    rw [hsnd] at ha
    exact tryConsentButtons_trace p.textClick consent_buttons a ha

/-- A concrete page on which the "Accept All" text click succeeds and the
`#onetrust-accept-btn-handler` selector is present and clickable. -/
def buttonPage : Page :=
  { textClick := fun b => if b = "Accept All" then .ok () else .error "no match"
    selectorCount := fun s =>
      if s = "#onetrust-accept-btn-handler" then .ok 1 else .ok 0
    selectorClick := fun s =>
      if s = "#onetrust-accept-btn-handler" then .ok () else .error "not found"
    frames := [] }

/-- C7 witness: on `buttonPage` the resolver returns `True` and its whole
attempt trace consists of text-match attempts only (the failed
"I Accept" try followed by the successful "Accept All" click). -/
theorem text_match_precedes_selectors_witness :
    (handle_cookie_dialogs buttonPage).1 = .ok true ∧
    (handle_cookie_dialogs buttonPage).2 =
      [.textClick "I Accept", .textClick "Accept All"] :=
  ⟨(text_match_precedes_selectors buttonPage
      ⟨"Accept All", by decide, rfl⟩).1, by decide⟩

/-! ## C8: `ContentProcessor.extract_amounts` (`main.py` lines 37-53)

`extract_amounts` runs five `re.findall` passes (case-insensitive) and
deduplicates the union with `list(set(amounts))`. The five patterns are
deterministic enough that Python's leftmost, non-overlapping, greedy
backtracking search is modelled exactly:
* `\$[\d,]+\.?\d*` (and the `€`, `£` variants): the character classes of
  consecutive quantified pieces are disjoint, so greedy matching never
  needs to backtrack;
* `[\d,]+\.?\d*\s*(?:USD|EUR|GBP|MXN|ARS|COP|PEN|CLP)`: likewise;
* `\b\d{1,3}(?:,\d{3})*(?:\.\d{2})?\b`: backtracking over the leading
  digit count, the group count and the optional decimal part is required
  and implemented (larger counts are preferred, as in the engine).
Word characters (`\b`) and whitespace (`\s`) are modelled at ASCII
granularity, matching Python on every character these patterns can
consume. -/

/-- The character class `[\d,]`. -/
def isDigitComma (c : Char) : Bool := c.isDigit || c = ','

/-- A regex word character (`\w`, ASCII): letter, digit or underscore. -/
def isWordChar (c : Char) : Bool := c.isAlphanum || c = '_'

/-- Match `SYM[\d,]+\.?\d*` at the head of `l` (`SYM` one of `$`, `€`,
`£`); returns the matched text and the remaining input. -/
def matchSymbolAmount (sym : Char) (l : List Char) :
    Option (List Char × List Char) :=
  match l with
  | [] => none
  | c :: rest =>
    if c = sym then
      let run := rest.takeWhile isDigitComma
      if run.isEmpty then none
      else
        let r2 := rest.dropWhile isDigitComma
        match r2 with
        | '.' :: r3 =>
          some (c :: run ++ '.' :: r3.takeWhile Char.isDigit,
            r3.dropWhile Char.isDigit)
        | _ => some (c :: run, r2)
    else none

/-- The upper-cased three-letter currency codes of the fourth pattern. -/
def currencyCodesUpper : List (List Char) :=
  ["USD".data, "EUR".data, "GBP".data, "MXN".data, "ARS".data, "COP".data,
   "PEN".data, "CLP".data]

/-- Match one of the currency codes, case-insensitively (`re.IGNORECASE`),
at the head of `l`. -/
def matchCode (l : List Char) : Option (List Char × List Char) :=
  match l with
  | a :: b :: c :: rest =>
    if [a.toUpper, b.toUpper, c.toUpper] ∈ currencyCodesUpper then
      some ([a, b, c], rest)
    else none
  | _ => none

/-- Match `[\d,]+\.?\d*\s*(?:USD|EUR|GBP|MXN|ARS|COP|PEN|CLP)` at the head
of `l`. -/
def matchCodeAmount (l : List Char) : Option (List Char × List Char) :=
  let run := l.takeWhile isDigitComma
  if run.isEmpty then none
  else
    let r1 := l.dropWhile isDigitComma
    let dp : List Char × List Char :=
      match r1 with
      | '.' :: rr =>
        ('.' :: rr.takeWhile Char.isDigit, rr.dropWhile Char.isDigit)
      | _ => ([], r1)
    let sp := dp.2.takeWhile isSpaceChar
    let r3 := dp.2.dropWhile isSpaceChar
    match matchCode r3 with
    | some (code, rest) => some (run ++ dp.1 ++ sp ++ code, rest)
    | none => none

/-- The `\b` assertion before a digit: the previous character (if any)
must not be a word character. -/
def boundaryBefore (prev : Option Char) : Bool :=
  match prev with
  | none => true
  | some c => !isWordChar c

/-- The `\b` assertion after a digit: the next character (if any) must
not be a word character. -/
def boundaryAfter : List Char → Bool
  | [] => true
  | c :: _ => !isWordChar c

/-- Try `(\.\d{2})?\b` after the already-matched `acc`: the engine prefers
consuming the decimal part, and falls back to the empty option. -/
def tryDecimal (acc : List Char) (rest : List Char) :
    Option (List Char × List Char) :=
  match rest with
  | '.' :: a :: b :: r2 =>
    if a.isDigit && b.isDigit && boundaryAfter r2 then
      some (acc ++ ['.', a, b], r2)
    else if boundaryAfter rest then some (acc, rest)
    else none
  | _ => if boundaryAfter rest then some (acc, rest) else none

/-- Try `(?:,\d{3})*(\.\d{2})?\b` after the already-matched `acc`: the
engine prefers consuming one more `,ddd` group and backtracks to fewer
groups when the continuation fails. -/
def tryFromGroups (acc : List Char) : List Char → Option (List Char × List Char)
  | ',' :: a :: b :: c :: rest =>
    if a.isDigit && b.isDigit && c.isDigit then
      match tryFromGroups (acc ++ [',', a, b, c]) rest with
      | some r => some r
      | none => tryDecimal acc (',' :: a :: b :: c :: rest)
    else tryDecimal acc (',' :: a :: b :: c :: rest)
  | l => tryDecimal acc l

/-- Match `\b\d{1,3}(?:,\d{3})*(?:\.\d{2})?\b` at the head of `l`, given
the character preceding `l` (for the left word boundary): the engine
tries three leading digits first, then two, then one. -/
def matchPlainNumber (prev : Option Char) (l : List Char) :
    Option (List Char × List Char) :=
  if boundaryBefore prev then
    match l with
    | [] => none
    | c1 :: rest1 =>
      if c1.isDigit then
        let t3 : Option (List Char × List Char) :=
          match rest1 with
          | c2 :: c3 :: rest3 =>
            if c2.isDigit && c3.isDigit then
              tryFromGroups [c1, c2, c3] rest3
            else none
          | _ => none
        match t3 with
        | some r => some r
        | none =>
          let t2 : Option (List Char × List Char) :=
            match rest1 with
            | c2 :: rest2 =>
              if c2.isDigit then tryFromGroups [c1, c2] rest2 else none
            | _ => none
          match t2 with
          | some r => some r
          | none => tryFromGroups [c1] rest1
      else none
  else none

/-- `re.findall`'s scan: attempt the matcher at every position from left
to right; a successful (always nonempty) match is emitted and the scan
resumes right after it, otherwise the scan advances one character. The
matcher receives the previous character for `\b`. The fuel equals the
input length, which the scan never exhausts early since every match
consumes at least one character. -/
def scanAllB
    (m : Option Char → List Char → Option (List Char × List Char)) :
    Nat → Option Char → List Char → List (List Char)
  | 0, _, _ => []
  | _ + 1, _, [] => []
  | fuel + 1, prev, c :: t =>
    match m prev (c :: t) with
    | some (mt, rest) => mt :: scanAllB m fuel mt.getLast? rest
    | none => scanAllB m fuel (some c) t

/-- `re.findall(pattern, text)` for one of the modelled patterns. -/
def pyFindAll (m : Option Char → List Char → Option (List Char × List Char))
    (l : List Char) : List (List Char) :=
  scanAllB m l.length none l

/-- `ContentProcessor.extract_amounts` (`main.py` lines 37-53): the five
pattern passes in source order, concatenated, then `list(set(amounts))`
(Python's set iteration order is unspecified; `List.dedup` realises one
such order). -/
def extract_amounts (text : String) : List String :=
  let cs := text.data
  let m1 := pyFindAll (fun _ l => matchSymbolAmount '$' l) cs
  let m2 := pyFindAll (fun _ l => matchSymbolAmount '€' l) cs
  let m3 := pyFindAll (fun _ l => matchSymbolAmount '£' l) cs
  let m4 := pyFindAll (fun _ l => matchCodeAmount l) cs
  let m5 := pyFindAll matchPlainNumber cs
  ((m1 ++ m2 ++ m3 ++ m4 ++ m5).map String.mk).dedup

/-- C8. On `"Total: $1,200.50 and €300"` the extracted amounts contain
both `"$1,200.50"` (dollar pattern) and `"€300"` (euro pattern), and for
every input text the returned collection holds no duplicate strings
(`list(set(...))`). -/
theorem extract_amounts_example_and_nodup :
    "$1,200.50" ∈ extract_amounts "Total: $1,200.50 and €300" ∧
    "€300" ∈ extract_amounts "Total: $1,200.50 and €300" ∧
    ∀ t : String, (extract_amounts t).Nodup := by
  refine ⟨by decide, by decide, fun t => List.nodup_dedup _⟩

end Scraper
